import Mathlib

/-!
Verification development for the neodownloader-addon repository.

The definitions below are a shallow embedding of the Python sources:
  - download_handler.py   (event normalisation and the completion sink)
  - gallery_dl_patch.py   (CustomDownloadJob.handle_url and the stop flag)
  - neodownloader_addon.py (domain extraction, engine dispatch, yt-dlp run)
  - main.py               (QueueManager: add_url, start_processing,
                           process_queue, stop_processing)

Python dictionaries passed to the completion handler are modelled as a
structure whose fields record key presence (outer Option) and the stored,
possibly null, value (inner Option).  Mutable module-level stop flags are
modelled as explicit state; blocking engine work is modelled by oracles
giving the observable behaviour of each external engine call.
-/

namespace NeoDL

/-- Model of the event dictionary passed to handle_download_completed
(download_handler.py).  Each field is a dictionary key: the outer Option
records whether the key is present, the inner value is the stored value
(inner Option none models a stored Python None). -/
structure EventData where
  url : Option (Option String)
  filename : Option (Option String)
  filepath : Option (Option String)
  original_url : Option (Option String)
  webpage_url : Option (Option String)
  title : Option (Option String)
  success : Option Bool
  error : Option (Option String)
deriving DecidableEq

/-- Dictionary with no keys present. -/
def EventData.empty : EventData :=
  { url := none, filename := none, filepath := none, original_url := none,
    webpage_url := none, title := none, success := none, error := none }

/-- Normalised outcome produced by normalize_download_data
(download_handler.py lines 81-96).  A value of none models Python None;
the timestamp is a parameter standing for datetime.now().isoformat(). -/
structure NormalizedEvent where
  url : Option String
  filename : Option String
  filepath : Option String
  original_url : Option String
  title : Option String
  success : Bool
  error : Option String
  timestamp : String
  source : String
deriving DecidableEq

/-- Model of normalize_download_data (download_handler.py lines 81-96):
each field is data.get(key, default); dict.get returns the stored value,
even a stored None, and the default only when the key is absent. -/
def normalize_download_data (now : String) (data : EventData) (source : String) :
    NormalizedEvent :=
  { url := data.url.getD (some "unknown")
    filename := data.filename.getD (some "unknown")
    filepath := data.filepath.getD (some "unknown")
    original_url :=
      data.original_url.getD (data.webpage_url.getD (data.url.getD (some "unknown")))
    title := data.title.getD (some "unknown")
    success := data.success.getD true
    error := data.error.getD none
    timestamp := now
    source := source }

/-- Model of handle_download_completed (download_handler.py lines 47-78):
normalises the event; the console output step has no observable effect on
the data, so the handler is the normalisation itself.  The produced
NormalizedEvent is one sink invocation. -/
def handle_download_completed (now : String) (data : EventData) (source : String) :
    NormalizedEvent :=
  normalize_download_data now data source

/-- Substring test on lists of characters: needle occurs contiguously in
hay.  Models the Python expression d in domain on strings. -/
def isSubstr (needle : List Char) : List Char → Bool
  | [] => needle.isEmpty
  | c :: t => needle.isPrefixOf (c :: t) || isSubstr needle t

/-- Python substring containment needle in hay. -/
def strContains (hay needle : String) : Bool :=
  isSubstr needle.toList hay.toList

/-- Characters terminating the network-location component of a URL. -/
def isNetlocEnd (c : Char) : Bool :=
  c = '/' || c = '?' || c = '#'

/-- Take characters up to the first path, query or fragment delimiter. -/
def takeNetloc : List Char → List Char
  | [] => []
  | c :: t => if isNetlocEnd c then [] else c :: takeNetloc t

/-- Characters after the first occurrence of the scheme separator. -/
def afterSchemeSep : List Char → Option (List Char)
  | ':' :: '/' :: '/' :: rest => some rest
  | _ :: rest => afterSchemeSep rest
  | [] => none

/-- Model of urlparse(url).netloc restricted to URLs of the common
scheme://host/path shape: the characters between the scheme separator and
the first path, query or fragment delimiter; empty string when there is no
scheme separator (matching urlparse on a schemeless string). -/
def netloc (url : String) : String :=
  match afterSchemeSep url.toList with
  | some rest => String.mk (takeNetloc rest)
  | none => ""

/-- Model of NeoDownloaderAddon.extract_domain (neodownloader_addon.py
lines 83-88): the lower-cased network location of the URL; empty string on
parse failure.  Lower-casing is applied character by character, matching
Python str.lower on ASCII hosts. -/
def extract_domain (url : String) : String :=
  String.mk ((netloc url).data.map Char.toLower)

/-- Priority domains for gallery-dl (neodownloader_addon.py lines 61-72). -/
def gallery_dl_priority : List String :=
  ["instagram.com", "twitter.com", "x.com", "artstation.com", "deviantart.com",
   "pixiv.net", "imgur.com", "reddit.com", "tumblr.com", "pinterest.com"]

/-- Priority domains for yt-dlp (neodownloader_addon.py lines 75-81). -/
def ytdlp_priority : List String :=
  ["youtube.com", "youtu.be", "vimeo.com", "twitch.tv", "tiktok.com"]

/-- Video-platform fast-path substrings (neodownloader_addon.py line 96). -/
def videoFastDomains : List String :=
  ["youtube.", "youtu.be", "vimeo.", "twitch."]

/-- Art-platform fast-path substrings (neodownloader_addon.py line 100). -/
def artFastDomains : List String :=
  ["artstation.", "pixiv.", "deviantart."]

/-- Rational value of the source literal 0.9, given by explicit numerator
and denominator so that kernel reduction can evaluate comparisons. -/
def conf09 : ℚ := ⟨9, 10, by decide, by decide⟩

/-- Rational value of the source literal 0.8, given by explicit numerator
and denominator so that kernel reduction can evaluate comparisons. -/
def conf08 : ℚ := ⟨4, 5, by decide, by decide⟩

/-- Result dictionary of detect_best_tool. -/
structure Detection where
  tool : Option String
  confidence : ℚ
  reason : String
deriving DecidableEq

/-- Model of NeoDownloaderAddon.detect_best_tool (neodownloader_addon.py
lines 90-118).  The two capability probes check_gallery_dl_support and
check_ytdlp_support are external blocking calls; they are passed as boolean
oracles (the source already maps every probe failure to false). -/
def detect_best_tool (gp yp : String → Bool) (url : String) : Detection :=
  let domain := extract_domain url
  if videoFastDomains.any (fun d => strContains domain d) then
    { tool := some "yt-dlp", confidence := 1, reason := "video platform" }
  else if artFastDomains.any (fun d => strContains domain d) then
    { tool := some "gallery-dl", confidence := 1, reason := "art platform" }
  else
    let gallery_support := gp url
    let ytdlp_support := yp url
    if gallery_support && !ytdlp_support then
      { tool := some "gallery-dl", confidence := conf08, reason := "gallery-dl only" }
    else if ytdlp_support && !gallery_support then
      { tool := some "yt-dlp", confidence := conf08, reason := "yt-dlp only" }
    else if gallery_support && ytdlp_support then
      if gallery_dl_priority.any (fun d => strContains domain d) then
        { tool := some "gallery-dl", confidence := conf09,
          reason := "both support, gallery-dl priority" }
      else
        { tool := some "yt-dlp", confidence := conf09,
          reason := "both support, yt-dlp priority" }
    else
      { tool := none, confidence := 0, reason := "not supported" }

/-- Exception signal raised out of the patched gallery-dl handle_url
(gallery_dl_patch.py): either the library cancellation exception
StopExtraction or an ordinary exception carrying its message string. -/
inductive GDSignal where
  | stopExtraction
  | failure (msg : String)
deriving DecidableEq

/-- String produced by str(gallery_dl.exception.StopExtraction()) when the
exception is formatted into the error field by the generic handler.  The
exact text is a gallery-dl library detail; it is held abstract as a fixed
constant. -/
def stopExtractionStr : String := "stop extraction"

/-- One url/kwdict message dispatched by gallery-dl to handle_url, together
with the outcome of the original (unpatched) handle_url for it: on success
the filename and filepath read back from self.pathfmt (either may be
absent), on failure the exception message. -/
structure GalleryItem where
  url : String
  webpage_url : Option String
  superResult : Except String (Option String × Option String)

/-- Model of CustomDownloadJob.handle_url (gallery_dl_patch.py lines
52-106).  The global stop flag is read twice; flag1 and flag2 are the
values observed at the two reads (they differ only if a stop request lands
between them).  Returns the completion-sink invocations made by the call
and the exception signal it raises, if any.  A stop observed at the first
checkpoint raises StopExtraction before download_data exists; a stop
observed at the second checkpoint is caught by the generic except handler,
which records success=False, error=str(e), invokes the sink, and
re-raises. -/
def handle_url (flag1 flag2 : Bool) (now : String) (item : GalleryItem) :
    List NormalizedEvent × Option GDSignal :=
  if flag1 then ([], some GDSignal.stopExtraction)
  else
    let base : EventData :=
      { url := some (some item.url)
        original_url := some (some (item.webpage_url.getD item.url))
        filename := some none
        filepath := some none
        webpage_url := none
        title := none
        success := some false
        error := some none }
    if flag2 then
      ([handle_download_completed now
          { base with success := some false, error := some (some stopExtractionStr) }
          "gallery-dl"],
       some GDSignal.stopExtraction)
    else
      match item.superResult with
      | Except.ok (fn, fp) =>
        ([handle_download_completed now
            { base with filename := some fn, filepath := some fp, success := some true }
            "gallery-dl"],
         none)
      | Except.error e =>
        ([handle_download_completed now
            { base with success := some false, error := some (some e) }
            "gallery-dl"],
         some (GDSignal.failure e))

/-- Model of gallery_dl.job.DownloadJob.run dispatching each extractor
message to the patched handle_url (the stop flag is read as a single
steady value here).  StopExtraction is the gallery-dl control-flow
exception and is absorbed by the library run loop; any other exception
propagates out of run. -/
def galleryRun (flag : Bool) (now : String) : List GalleryItem →
    List NormalizedEvent × Option String
  | [] => ([], none)
  | item :: rest =>
    match handle_url flag flag now item with
    | (evs, none) =>
      let r := galleryRun flag now rest
      (evs ++ r.1, r.2)
    | (evs, some GDSignal.stopExtraction) => (evs, none)
    | (evs, some (GDSignal.failure e)) => (evs, some e)

/-- Model of NeoDownloaderAddon.parse_with_gallery_dl (neodownloader_addon.py
lines 164-249): runs the gallery-dl job on the messages the extractor
yields for the URL; gallery_dl_process re-raises any exception, which
parse_with_gallery_dl propagates. -/
def parse_with_gallery_dl (flag : Bool) (now : String) (items : List GalleryItem) :
    List NormalizedEvent × Option String :=
  galleryRun flag now items

/-- Python os.path.basename: the part of the path after the last slash. -/
def basename (p : String) : String :=
  String.mk ((p.data.reverse.takeWhile (fun c => c = '/' → False)).reverse)

/-- Model of NeoDownloaderAddon.parse_with_ytdlp (neodownloader_addon.py
lines 251-328).  The external ydl.download call is an oracle: failure with
a message, or success with the list of downloaded file paths, for each of
which post_hook fires once.  When the yt-dlp stop flag is set, the first
progress or post hook raises YtDlpStopException, which the surrounding
try catches specifically, producing no sink invocation and no error.  On a
generic failure, error_hook builds a success=False event, invokes the
sink, and the exception is re-raised. -/
def parse_with_ytdlp (flag : Bool) (run : Except String (List String))
    (url now : String) : List NormalizedEvent × Option String :=
  if flag then ([], none)
  else
    match run with
    | Except.ok files =>
      (files.map (fun fp =>
        handle_download_completed now
          { url := some (some url)
            filename := some (some (if fp = "" then "unknown" else basename fp))
            filepath := some (some (if fp = "" then "unknown" else fp))
            original_url := none
            webpage_url := none
            title := some (some "unknown")
            success := some true
            error := some none }
          "yt-dlp"),
       none)
    | Except.error e =>
      ([handle_download_completed now
          { url := some (some url)
            filename := some (some "unknown")
            filepath := some none
            original_url := none
            webpage_url := none
            title := some (some "unknown")
            success := some false
            error := some (some e) }
          "yt-dlp"],
       some e)

/-- Observable behaviour of the external engine calls, fixed per URL: the
two capability probes and, for each engine, the outcome of running it. -/
structure ParseOracle where
  gallery_support : String → Bool
  ytdlp_support : String → Bool
  galleryItems : String → List GalleryItem
  ytdlpRun : String → Except String (List String)

/-- Process-wide stop flags: _STOP_ALL_DOWNLOADS (gallery_dl_patch.py)
and _STOP_YT_DLP (neodownloader_addon.py). -/
structure GlobalFlags where
  stop_gallery : Bool
  stop_ytdlp : Bool
deriving DecidableEq

/-- Model of NeoDownloaderAddon.parse (neodownloader_addon.py lines
147-162): select a tool via detect_best_tool, dispatch to the matching
engine, or raise when no tool was selected.  Returns the sink invocations
made while processing the URL and the exception message propagated out of
parse, if any. -/
def parse (o : ParseOracle) (fl : GlobalFlags) (now url : String) :
    List NormalizedEvent × Option String :=
  let detection := detect_best_tool o.gallery_support o.ytdlp_support url
  if detection.tool = some "gallery-dl" then
    parse_with_gallery_dl fl.stop_gallery now (o.galleryItems url)
  else if detection.tool = some "yt-dlp" then
    parse_with_ytdlp fl.stop_ytdlp (o.ytdlpRun url) url now
  else
    ([], some ("URL not supported by media parsers: " ++ url))

/-- State of the QueueManager (main.py lines 35-131) together with the two
process-wide engine stop flags.  current_task models whether
self.current_task holds a task handle. -/
structure QMState where
  queue : List String
  is_processing : Bool
  should_stop : Bool
  current_task : Option Unit
  flags : GlobalFlags
deriving DecidableEq

/-- State at process start: empty queue, no session, all flags clear
(module initialisers of main.py, gallery_dl_patch.py and
neodownloader_addon.py). -/
def initialQM : QMState :=
  { queue := [], is_processing := false, should_stop := false,
    current_task := none,
    flags := { stop_gallery := false, stop_ytdlp := false } }

/-- Model of QueueManager.add_url (main.py lines 42-46): append the URL to
the FIFO queue. -/
def add_url (s : QMState) (url : String) : QMState :=
  { s with queue := s.queue ++ [url] }

/-- Enqueue a list of URLs in order via add_url. -/
def enqueueAll (s : QMState) (urls : List String) : QMState :=
  urls.foldl add_url s

/-- Model of QueueManager.start_processing (main.py lines 48-56): when no
drain is active and the queue is non-empty, clear the gallery-dl stop flag
via set_stop_flag(False), set is_processing, clear should_stop and create
the drain task.  Note the source never calls set_ytdlp_stop_flag(False)
here, so the yt-dlp flag is left unchanged. -/
def start_processing (s : QMState) : QMState :=
  if s.is_processing = false ∧ s.queue ≠ [] then
    { s with flags := { s.flags with stop_gallery := false },
             is_processing := true,
             should_stop := false,
             current_task := some () }
  else s

/-- Drain loop of QueueManager.process_queue (main.py lines 62-83) run to
completion without a concurrent stop request, so the should_stop value read
by the loop is constant.  Returns the list of URLs dequeued and dispatched
to parser.parse, in order, and the concatenated sink invocations; any
exception from parse is caught inside the loop, which then continues with
the next URL. -/
def drainLoop (o : ParseOracle) (fl : GlobalFlags) (now : String) :
    List String → Bool → List String × List NormalizedEvent
  | _, true => ([], [])
  | [], false => ([], [])
  | url :: rest, false =>
    let pr := parse o fl now url
    let r := drainLoop o fl now rest false
    (url :: r.1, pr.1 ++ r.2)

/-- Model of QueueManager.process_queue (main.py lines 58-96): run the
drain loop over the queued URLs, then, in the finally block, clear
is_processing and current_task.  Returns the final state, the dispatch
order and the sink invocations. -/
def process_queue (o : ParseOracle) (now : String) (s : QMState) :
    QMState × List String × List NormalizedEvent :=
  let r := drainLoop o s.flags now s.queue s.should_stop
  ({ s with queue := if s.should_stop then s.queue else [],
            is_processing := false,
            current_task := none },
   r.1, r.2)

/-- Model of QueueManager.stop_processing (main.py lines 98-131): set both
engine stop flags and should_stop, cancel and await the current task, drain
the queue counting the discarded entries, reset is_processing and
current_task, and return the count.  The discarded entries are never
dispatched, so no sink invocation is made for them. -/
def stop_processing (s : QMState) : Nat × QMState :=
  (s.queue.length,
   { queue := [],
     is_processing := false,
     should_stop := true,
     current_task := none,
     flags := { stop_gallery := true, stop_ytdlp := true } })

/-- Probe oracle that reports support for every URL. -/
def probeTrue : String → Bool := fun _ => true

/-- Probe oracle that reports support for no URL. -/
def probeFalse : String → Bool := fun _ => false

/-- Both process-wide engine stop flags clear. -/
def flagsClear : GlobalFlags := { stop_gallery := false, stop_ytdlp := false }

/-- Oracle under which neither engine supports any URL; the engine runs
are never reached on unsupported URLs. -/
def oNone : ParseOracle :=
  { gallery_support := probeFalse, ytdlp_support := probeFalse,
    galleryItems := fun _ => [],
    ytdlpRun := fun _ => Except.error "boom" }

/-- Oracle whose yt-dlp run downloads a single file. -/
def oYt : ParseOracle :=
  { gallery_support := probeFalse, ytdlp_support := probeTrue,
    galleryItems := fun _ => [],
    ytdlpRun := fun _ => Except.ok ["/tmp/v.mp4"] }

/-- Oracle whose yt-dlp run raises a generic error. -/
def oYtErr : ParseOracle :=
  { gallery_support := probeFalse, ytdlp_support := probeTrue,
    galleryItems := fun _ => [],
    ytdlpRun := fun _ => Except.error "network down" }

/-- A gallery-dl message whose original handle_url succeeds. -/
def gItemOk : GalleryItem :=
  { url := "https://img.example/1.jpg", webpage_url := none,
    superResult := Except.ok (some "1.jpg", some "/tmp/1.jpg") }

/-- A second successful gallery-dl message. -/
def gItemOk2 : GalleryItem :=
  { url := "https://img.example/2.jpg", webpage_url := none,
    superResult := Except.ok (some "2.jpg", some "/tmp/2.jpg") }

/-- Oracle under which only gallery-dl supports the URL and the gallery
run yields two successfully handled messages. -/
def oGal : ParseOracle :=
  { gallery_support := probeTrue, ytdlp_support := probeFalse,
    galleryItems := fun _ => [gItemOk, gItemOk2],
    ytdlpRun := fun _ => Except.error "unused" }

/-- Oracle under which both probes fail for every URL while the yt-dlp
run would succeed: only the domain fast-paths can select an engine. -/
def oMix : ParseOracle :=
  { gallery_support := probeFalse, ytdlp_support := probeFalse,
    galleryItems := fun _ => [],
    ytdlpRun := fun _ => Except.ok ["/tmp/ok.mp4"] }


theorem conf09_eq : conf09 = 0.9 := by
  rw [conf09, Rat.mk'_eq_divInt, Rat.divInt_eq_div]; norm_num

theorem conf08_eq : conf08 = 0.8 := by
  rw [conf08, Rat.mk'_eq_divInt, Rat.divInt_eq_div]; norm_num

/-- C10: an event dictionary lacking the success key normalises to a
successful outcome (success = true), and a missing error key normalises to
None, unlike the other fields whose missing-key default is the string
sentinel unknown (title shown as representative). -/
theorem C10_missing_key_defaults :
    (∀ (now src : String) (d : EventData), d.success = none →
        (handle_download_completed now d src).success = true) ∧
    (∀ (now src : String) (d : EventData), d.error = none →
        (handle_download_completed now d src).error = none) ∧
    (∀ (now src : String) (d : EventData), d.title = none →
        (handle_download_completed now d src).title = some "unknown") := by
  refine ⟨?_, ?_, ?_⟩ <;>
    intro now src d h <;>
    simp [handle_download_completed, normalize_download_data, h]

/-- Witness for C10 at the dictionary with no keys present. -/
theorem C10_missing_key_defaults_witness :
    (handle_download_completed "t0" EventData.empty "yt-dlp").success = true ∧
    (handle_download_completed "t0" EventData.empty "yt-dlp").error = none ∧
    (handle_download_completed "t0" EventData.empty "yt-dlp").title = some "unknown" :=
  ⟨C10_missing_key_defaults.1 "t0" "yt-dlp" EventData.empty rfl,
   C10_missing_key_defaults.2.1 "t0" "yt-dlp" EventData.empty rfl,
   C10_missing_key_defaults.2.2 "t0" "yt-dlp" EventData.empty rfl⟩

/-- C9: domain matching is substring containment, not equality.  First
part: whenever one of the video fast-path substrings occurs anywhere in
the lowercased host, detect_best_tool returns the video engine with
confidence 1.0, and the result does not depend on either probe (the probes
are not consulted).  Second part: for URLs that reach the tie-break with
both probes reporting support, the gallery engine is selected exactly when
some gallery-priority entry occurs as a substring of the host. -/
theorem C9_substring_domain_matching :
    (∀ (gp yp gp2 yp2 : String → Bool) (url : String),
        videoFastDomains.any (fun d => strContains (extract_domain url) d) = true →
        detect_best_tool gp yp url =
          { tool := some "yt-dlp", confidence := 1, reason := "video platform" } ∧
        detect_best_tool gp yp url = detect_best_tool gp2 yp2 url) ∧
    (∀ (gp yp : String → Bool) (url : String),
        videoFastDomains.any (fun d => strContains (extract_domain url) d) = false →
        artFastDomains.any (fun d => strContains (extract_domain url) d) = false →
        gp url = true → yp url = true →
        ((detect_best_tool gp yp url).tool = some "gallery-dl" ↔
          gallery_dl_priority.any (fun d => strContains (extract_domain url) d) = true)) := by
  constructor
  · intro gp yp gp2 yp2 url h
    constructor <;> simp [detect_best_tool, h]
  · intro gp yp url hv ha h1 h2
    simp only [detect_best_tool, hv, ha, h1, h2]
    cases hp : gallery_dl_priority.any (fun d => strContains (extract_domain url) d) <;>
      simp [hp]

/-- Witness for C9: host notyoutube.example.com contains the substring
youtube. and is routed to the video engine with confidence 1.0 under
probes that both report no support; and imgur.com reaches the tie-break
where it is matched by substring against the gallery-priority list. -/
theorem C9_substring_domain_matching_witness :
    detect_best_tool probeFalse probeFalse "https://notyoutube.example.com/x" =
      { tool := some "yt-dlp", confidence := 1, reason := "video platform" } ∧
    (detect_best_tool probeTrue probeTrue "https://imgur.com/a").tool =
      some "gallery-dl" :=
  ⟨(C9_substring_domain_matching.1 probeFalse probeFalse probeTrue probeTrue
      "https://notyoutube.example.com/x" (by decide)).1,
   (C9_substring_domain_matching.2 probeTrue probeTrue "https://imgur.com/a"
      (by decide) (by decide) rfl rfl).mpr (by decide)⟩

/-- C5 counterexample: for the URL https://youtube.x.com/a both probes
report support and the host contains the gallery-priority entry x.com, so
the claim predicts the gallery engine with confidence 0.9; the code takes
the video fast-path first and returns the video engine with confidence
1.0.  The claim as stated is therefore false. -/
theorem C5_counterexample :
    probeTrue "https://youtube.x.com/a" = true ∧
    gallery_dl_priority.any
      (fun d => strContains (extract_domain "https://youtube.x.com/a") d) = true ∧
    (detect_best_tool probeTrue probeTrue "https://youtube.x.com/a").tool =
      some "yt-dlp" ∧
    (detect_best_tool probeTrue probeTrue "https://youtube.x.com/a").confidence = 1 ∧
    (1 : ℚ) ≠ conf09 := by
  refine ⟨rfl, by decide, by decide, by decide, by decide⟩

/-- C5 amended: for every URL whose domain matches neither fast-path list
(so the probe stage is reached), when both probes report support the
tie-break selects the gallery engine with confidence 0.9 exactly when the
domain contains a gallery-priority entry, and the video engine with
confidence 0.9 otherwise; being a total function of the inputs, the
tie-break is deterministic and every domain resolves to exactly one
winner. -/
theorem C5_tie_break (gp yp : String → Bool) (url : String)
    (h1 : gp url = true) (h2 : yp url = true)
    (hv : videoFastDomains.any (fun d => strContains (extract_domain url) d) = false)
    (ha : artFastDomains.any (fun d => strContains (extract_domain url) d) = false) :
    detect_best_tool gp yp url =
      (if gallery_dl_priority.any (fun d => strContains (extract_domain url) d) then
        { tool := some "gallery-dl", confidence := conf09,
          reason := "both support, gallery-dl priority" }
      else
        { tool := some "yt-dlp", confidence := conf09,
          reason := "both support, yt-dlp priority" }) := by
  simp [detect_best_tool, h1, h2, hv, ha]

/-- Witness for C5 amended: the tie-break scenario of the specification,
https://reddit.com/r/x/comments/1 with both probes reporting support,
selects the gallery engine with confidence 0.9. -/
theorem C5_tie_break_witness :
    detect_best_tool probeTrue probeTrue "https://reddit.com/r/x/comments/1" =
      { tool := some "gallery-dl", confidence := conf09,
        reason := "both support, gallery-dl priority" } := by
  have h := C5_tie_break probeTrue probeTrue "https://reddit.com/r/x/comments/1"
    rfl rfl (by decide) (by decide)
  rw [h]
  decide


theorem enqueueAll_queue (urls : List String) (s : QMState) :
    (enqueueAll s urls).queue = s.queue ++ urls := by
  induction urls generalizing s with
  | nil => simp [enqueueAll]
  | cons u t ih =>
    show (enqueueAll (add_url s u) t).queue = _
    rw [ih]
    simp [add_url]

theorem enqueueAll_should_stop (urls : List String) (s : QMState) :
    (enqueueAll s urls).should_stop = s.should_stop := by
  induction urls generalizing s with
  | nil => rfl
  | cons u t ih =>
    show (enqueueAll (add_url s u) t).should_stop = _
    rw [ih]
    rfl

theorem drainLoop_trace (o : ParseOracle) (fl : GlobalFlags) (now : String)
    (q : List String) : (drainLoop o fl now q false).1 = q := by
  induction q with
  | nil => rfl
  | cons u t ih => simp [drainLoop, ih]

/-- C6: starting from the initial state, after any sequence of add_url
calls the drain loop dequeues and dispatches the URLs exactly in enqueue
order: the dispatch trace of process_queue equals the enqueued list, with
no reordering, no priority promotion and no de-duplication (duplicate URLs
occur in the trace as often as they were enqueued), for every engine
oracle. -/
theorem C6_fifo_order (o : ParseOracle) (now : String) (urls : List String) :
    (process_queue o now (enqueueAll initialQM urls)).2.1 = urls := by
  have hq := enqueueAll_queue urls initialQM
  have hs := enqueueAll_should_stop urls initialQM
  simp only [process_queue, hq, hs]
  simp only [initialQM, List.nil_append]
  exact drainLoop_trace o _ now urls

/-- C7: stop_processing returns exactly the number of not-yet-started
queue entries, which are discarded without being dispatched (the model
stop emits no dispatch and no sink invocation), and leaves the queue
empty with is_processing false and current_task none; a second call in a
row returns 0 and changes nothing, and a call on an empty queue returns
0. -/
theorem C7_stop_idempotent (s : QMState) :
    (stop_processing s).1 = s.queue.length ∧
    (stop_processing s).2.queue = [] ∧
    (stop_processing s).2.is_processing = false ∧
    (stop_processing s).2.current_task = none ∧
    (stop_processing (stop_processing s).2).1 = 0 ∧
    (stop_processing (stop_processing s).2).2 = (stop_processing s).2 ∧
    (s.queue = [] → (stop_processing s).1 = 0) := by
  refine ⟨rfl, rfl, rfl, rfl, rfl, rfl, ?_⟩
  intro h
  simp [stop_processing, h]

/-- Witness for C7 at the initial idle state with an empty queue. -/
theorem C7_stop_idempotent_witness :
    (stop_processing initialQM).1 = 0 ∧
    (stop_processing (stop_processing initialQM).2).1 = 0 ∧
    (stop_processing initialQM).2.is_processing = false ∧
    (stop_processing initialQM).2.current_task = none :=
  ⟨(C7_stop_idempotent initialQM).2.2.2.2.2.2 rfl,
   (C7_stop_idempotent initialQM).2.2.2.2.1,
   (C7_stop_idempotent initialQM).2.2.1,
   (C7_stop_idempotent initialQM).2.2.2.1⟩

/-- C8: start_processing creates the drain task only from the idle state
with a non-empty queue; when a drain is active, or when the queue is
empty, it changes nothing, and it is idempotent, so repeated invocation
never produces a second concurrent drain session. -/
theorem C8_single_session (s : QMState) :
    (s.is_processing = true → start_processing s = s) ∧
    (s.queue = [] → start_processing s = s) ∧
    (s.is_processing = false → s.queue ≠ [] →
      start_processing s =
        { s with flags := { s.flags with stop_gallery := false },
                 is_processing := true,
                 should_stop := false,
                 current_task := some () }) ∧
    start_processing (start_processing s) = start_processing s := by
  refine ⟨?_, ?_, ?_, ?_⟩
  · intro h; simp [start_processing, h]
  · intro h; simp [start_processing, h]
  · intro h1 h2; simp [start_processing, h1, h2]
  · by_cases h : s.is_processing = false ∧ s.queue ≠ []
    · simp [start_processing, h]
    · simp [start_processing, h]

/-- Witness for C8: starting with one queued URL creates the session, and
starting from the idle empty state is a no-op. -/
theorem C8_single_session_witness :
    start_processing (add_url initialQM "https://example.com/a") =
      { (add_url initialQM "https://example.com/a") with
          flags := { (add_url initialQM "https://example.com/a").flags with
                       stop_gallery := false },
          is_processing := true,
          should_stop := false,
          current_task := some () } ∧
    start_processing initialQM = initialQM :=
  ⟨(C8_single_session (add_url initialQM "https://example.com/a")).2.2.1 rfl
      (by decide),
   (C8_single_session initialQM).2.1 rfl⟩

/-- C2: the claim matches the specification, but the code violates it.
After a stop request, start_processing on a freshly enqueued queue from
idle clears the gallery-dl stop flag (set_stop_flag False) and the queue
should-stop flag, but the source never calls set_ytdlp_stop_flag(False),
so the yt-dlp stop flag is still set when the first job of the new session
begins; a yt-dlp job then aborts at its first hook and produces no sink
invocation even though its download would succeed. -/
theorem C2_ytdlp_flag_not_cleared :
    (start_processing (add_url (stop_processing initialQM).2
        "https://youtube.com/watch?v=abc")).is_processing = true ∧
    (start_processing (add_url (stop_processing initialQM).2
        "https://youtube.com/watch?v=abc")).should_stop = false ∧
    (start_processing (add_url (stop_processing initialQM).2
        "https://youtube.com/watch?v=abc")).flags.stop_gallery = false ∧
    (start_processing (add_url (stop_processing initialQM).2
        "https://youtube.com/watch?v=abc")).flags.stop_ytdlp = true ∧
    (parse oYt (start_processing (add_url (stop_processing initialQM).2
        "https://youtube.com/watch?v=abc")).flags "t0"
        "https://youtube.com/watch?v=abc").1 = [] ∧
    (parse oYt flagsClear "t0" "https://youtube.com/watch?v=abc").1.length = 1 := by
  refine ⟨rfl, rfl, rfl, rfl, by decide, by decide⟩


theorem galleryRun_all_ok (now : String) (items : List GalleryItem)
    (h : ∀ it ∈ items, ∃ fn fp, it.superResult = Except.ok (fn, fp)) :
    (galleryRun false now items).1.length = items.length ∧
    (galleryRun false now items).2 = none := by
  induction items with
  | nil => exact ⟨rfl, rfl⟩
  | cons it t ih =>
    obtain ⟨fn, fp, hok⟩ := h it (List.mem_cons_self it t)
    have ht := ih (fun x hx => h x (List.mem_cons_of_mem it hx))
    simp [galleryRun, handle_url, hok, ht.1, ht.2]

/-- C1 counterexample: the drain loop dequeues and dispatches the job for
https://example.com/unknown (no engine selects it), yet the Completion
Sink handle_download_completed is invoked zero times for it, not exactly
once: parse raises, the loop catches the exception and no outcome is ever
emitted.  The claim as stated is therefore false. -/
theorem C1_counterexample :
    (drainLoop oNone flagsClear "t0" ["https://example.com/unknown"] false).1 =
      ["https://example.com/unknown"] ∧
    (drainLoop oNone flagsClear "t0" ["https://example.com/unknown"] false).2 = [] := by
  exact ⟨by decide, by decide⟩

/-- C1 amended: the Completion Sink is invoked once per engine
file-completion or error hook firing, not exactly once per dequeued job:
zero invocations when no engine is selected (the raised exception is
caught by the drain loop, which continues), one invocation per downloaded
file for a successful yt-dlp run, exactly one for a failed yt-dlp run,
zero for a yt-dlp run halted by the stop flag, and one per extractor
message for a gallery-dl run whose messages all succeed. -/
theorem C1_sink_per_hook :
    (∀ (o : ParseOracle) (fl : GlobalFlags) (now url : String),
        (detect_best_tool o.gallery_support o.ytdlp_support url).tool = none →
        parse o fl now url =
          ([], some ("URL not supported by media parsers: " ++ url))) ∧
    (∀ (o : ParseOracle) (now url : String) (files : List String),
        (detect_best_tool o.gallery_support o.ytdlp_support url).tool = some "yt-dlp" →
        o.ytdlpRun url = Except.ok files →
        (parse o flagsClear now url).1.length = files.length) ∧
    (∀ (o : ParseOracle) (now url e : String),
        (detect_best_tool o.gallery_support o.ytdlp_support url).tool = some "yt-dlp" →
        o.ytdlpRun url = Except.error e →
        (parse o flagsClear now url).1.length = 1) ∧
    (∀ (o : ParseOracle) (gf : Bool) (now url : String),
        (detect_best_tool o.gallery_support o.ytdlp_support url).tool = some "yt-dlp" →
        (parse o { stop_gallery := gf, stop_ytdlp := true } now url).1 = []) ∧
    (∀ (o : ParseOracle) (yf : Bool) (now url : String),
        (detect_best_tool o.gallery_support o.ytdlp_support url).tool =
          some "gallery-dl" →
        (∀ it ∈ o.galleryItems url, ∃ fn fp, it.superResult = Except.ok (fn, fp)) →
        (parse o { stop_gallery := false, stop_ytdlp := yf } now url).1.length =
          (o.galleryItems url).length) := by
  refine ⟨?_, ?_, ?_, ?_, ?_⟩
  · intro o fl now url h
    simp [parse, h]
  · intro o now url files h hr
    simp [parse, h, parse_with_ytdlp, hr, flagsClear]
  · intro o now url e h hr
    simp [parse, h, parse_with_ytdlp, hr, flagsClear]
  · intro o gf now url h
    simp [parse, h, parse_with_ytdlp]
  · intro o yf now url h hok
    have hg := galleryRun_all_ok now (o.galleryItems url) hok
    simp [parse, h, parse_with_gallery_dl, hg.1]

/-- Witness for C1 amended at concrete oracles: an unsupported URL emits
nothing, a one-file yt-dlp success emits once, a yt-dlp failure emits
once, a flagged yt-dlp run emits nothing, and a two-message gallery run
emits twice. -/
theorem C1_sink_per_hook_witness :
    parse oNone flagsClear "t0" "https://example.com/other" =
      ([], some ("URL not supported by media parsers: " ++ "https://example.com/other")) ∧
    (parse oYt flagsClear "t0" "https://youtu.be/xyz").1.length = 1 ∧
    (parse oYtErr flagsClear "t0" "https://youtu.be/xyz").1.length = 1 ∧
    (parse oYt { stop_gallery := false, stop_ytdlp := true } "t0"
        "https://youtu.be/xyz").1 = [] ∧
    (parse oGal { stop_gallery := false, stop_ytdlp := false } "t0"
        "https://imgur.com/a").1.length = 2 := by
  refine ⟨C1_sink_per_hook.1 oNone flagsClear "t0" "https://example.com/other"
            (by decide),
          C1_sink_per_hook.2.1 oYt "t0" "https://youtu.be/xyz" ["/tmp/v.mp4"]
            (by decide) rfl,
          C1_sink_per_hook.2.2.1 oYtErr "t0" "https://youtu.be/xyz" "network down"
            (by decide) rfl,
          C1_sink_per_hook.2.2.2.1 oYt false "t0" "https://youtu.be/xyz" (by decide),
          ?_⟩
  have hok : ∀ it ∈ oGal.galleryItems "https://imgur.com/a",
      ∃ fn fp, it.superResult = Except.ok (fn, fp) := by
    intro it hit
    simp only [oGal, List.mem_cons, List.not_mem_nil, or_false] at hit
    rcases hit with h | h <;> subst h <;> exact ⟨_, _, rfl⟩
  have h := C1_sink_per_hook.2.2.2.2 oGal false "t0" "https://imgur.com/a"
    (by decide) hok
  simpa using h

/-- C3 counterexample: a stop observed at the inner gallery-dl checkpoint
(flag read false at the first checkpoint, true at the second) does raise
the distinguishable StopExtraction signal, but the handler catches it with
the generic except clause first and emits a sink outcome with
success=false carrying the exception text as an ordinary error message —
the very same outcome an ordinary engine failure with that message
produces.  No outcome is ever classified as Cancelled, so the claim as
stated is false. -/
theorem C3_counterexample :
    (handle_url false true "t0" gItemOk).1 =
      (handle_url false false "t0"
        { gItemOk with superResult := Except.error stopExtractionStr }).1 ∧
    (handle_url false true "t0" gItemOk).1.map (fun e => e.success) = [false] ∧
    (handle_url false true "t0" gItemOk).1.map (fun e => e.error) =
      [some stopExtractionStr] ∧
    (handle_url false true "t0" gItemOk).2 = some GDSignal.stopExtraction := by
  refine ⟨by decide, by decide, by decide, by decide⟩

/-- C3 amended: each engine checkpoint that observes a set stop flag
raises a typed cancellation exception (StopExtraction for gallery-dl,
YtDlpStopException for yt-dlp).  The yt-dlp exception is caught
specifically by parse_with_ytdlp and yields neither a sink outcome nor an
error; a stop at the first gallery-dl checkpoint emits no outcome; but a
stop at the inner gallery-dl checkpoint emits a success=false outcome
carrying the exception text, and no Cancelled classification exists in
the outcome format. -/
theorem C3_cancellation_signals :
    (∀ (f2 : Bool) (now : String) (it : GalleryItem),
        handle_url true f2 now it = ([], some GDSignal.stopExtraction)) ∧
    (∀ (run : Except String (List String)) (url now : String),
        parse_with_ytdlp true run url now = ([], none)) ∧
    (∀ (now : String) (it : GalleryItem),
        (handle_url false true now it).2 = some GDSignal.stopExtraction ∧
        (handle_url false true now it).1.map (fun e => e.success) = [false] ∧
        (handle_url false true now it).1.map (fun e => e.error) =
          [some stopExtractionStr]) := by
  refine ⟨?_, ?_, ?_⟩
  · intro f2 now it
    simp [handle_url]
  · intro run url now
    simp [parse_with_ytdlp]
  · intro now it
    refine ⟨rfl, ?_, ?_⟩ <;>
      simp [handle_url, handle_download_completed, normalize_download_data]

/-- Witness for C3 amended at concrete inputs. -/
theorem C3_cancellation_signals_witness :
    handle_url true false "t0" gItemOk = ([], some GDSignal.stopExtraction) ∧
    parse_with_ytdlp true (Except.ok ["/tmp/v.mp4"]) "https://youtu.be/xyz" "t0" =
      ([], none) ∧
    (handle_url false true "t0" gItemOk2).2 = some GDSignal.stopExtraction :=
  ⟨C3_cancellation_signals.1 false "t0" gItemOk,
   C3_cancellation_signals.2.1 (Except.ok ["/tmp/v.mp4"]) "https://youtu.be/xyz" "t0",
   (C3_cancellation_signals.2.2 "t0" gItemOk2).1⟩

/-- C4 counterexample: for a dequeued URL that no engine selects, the drain
loop does continue to the next job, but the job gets no Failed outcome at
all: parse raises the message URL not supported by media parsers, which
differs from the claimed reason unsupported URL, the exception is caught
and logged, and zero sink outcomes are emitted for the job.  The claim as
stated is therefore false. -/
theorem C4_counterexample :
    (drainLoop oMix flagsClear "t0"
        ["https://example.com/nope", "https://youtu.be/ok"] false).1 =
      ["https://example.com/nope", "https://youtu.be/ok"] ∧
    (drainLoop oMix flagsClear "t0"
        ["https://example.com/nope", "https://youtu.be/ok"] false).2.map
        (fun e => e.url) = [some "https://youtu.be/ok"] ∧
    (parse oMix flagsClear "t0" "https://example.com/nope").2 =
      some "URL not supported by media parsers: https://example.com/nope" ∧
    "URL not supported by media parsers: https://example.com/nope" ≠
      "unsupported URL" := by
  refine ⟨by decide, by decide, by decide, by decide⟩

/-- C4 amended: for every dequeued URL for which the dispatcher selects no
engine, parse raises the exception URL not supported by media parsers
followed by the URL (emitting no sink outcome), and the drain loop catches
it and continues to the next queued job, leaving the trace and sink
output of the remaining jobs unchanged — the failure is not fatal to the
queue. -/
theorem C4_unsupported_continues (o : ParseOracle) (fl : GlobalFlags)
    (now u : String) (rest : List String)
    (h : (detect_best_tool o.gallery_support o.ytdlp_support u).tool = none) :
    parse o fl now u = ([], some ("URL not supported by media parsers: " ++ u)) ∧
    (drainLoop o fl now (u :: rest) false).1 =
      u :: (drainLoop o fl now rest false).1 ∧
    (drainLoop o fl now (u :: rest) false).2 =
      (drainLoop o fl now rest false).2 := by
  have hp : parse o fl now u =
      ([], some ("URL not supported by media parsers: " ++ u)) := by
    simp [parse, h]
  refine ⟨hp, ?_, ?_⟩ <;> simp [drainLoop, hp]

/-- Witness for C4 amended: the unsupported job is followed by a
successfully processed yt-dlp job. -/
theorem C4_unsupported_continues_witness :
    parse oMix flagsClear "t0" "https://example.com/xyz" =
      ([], some ("URL not supported by media parsers: " ++ "https://example.com/xyz")) ∧
    (drainLoop oMix flagsClear "t0" ["https://example.com/xyz", "https://youtu.be/ok"]
        false).1 =
      "https://example.com/xyz" ::
        (drainLoop oMix flagsClear "t0" ["https://youtu.be/ok"] false).1 ∧
    (drainLoop oMix flagsClear "t0" ["https://example.com/xyz", "https://youtu.be/ok"]
        false).2 =
      (drainLoop oMix flagsClear "t0" ["https://youtu.be/ok"] false).2 :=
  C4_unsupported_continues oMix flagsClear "t0" "https://example.com/xyz"
    ["https://youtu.be/ok"] (by decide)

end NeoDL
